import Mathlib

/-!
Shallow embedding of the core of the c-cote library (src/cote.c) and proofs
of the behavioural claims about it.

Modelling conventions:
- C strings are modelled as `List Char` (`CStr`); `strlen` is `List.length`,
  pointer offsets into a string are `List.drop`.
- cJSON values are modelled by the inductive `Json`; cJSON numbers (C doubles)
  are modelled as `Int`, which is sufficient because the code only reads the
  `port` number and casts it to `uint16_t`.
- `cJSON_GetStringValue` returns NULL for a non-string item; the C code then
  passes that NULL to `strcmp`, which can never compare equal to a literal,
  so the embedding models "strcmp(lit, GetStringValue(x)) == 0" as
  `cJSON_GetStringValue x = some lit`.
- Function pointers and user pointers are modelled as `Nat` values (0 = NULL);
  the behaviour of subscription callbacks is supplied to the router as an
  explicit environment `callFn`.
- POSIX regex compilation/execution (`regcomp`/`regexec`, an external libc
  facility) is abstracted as a boolean parameter `rx pattern subject`;
  `rx p s = false` covers both compilation failure and no-match, which the
  code treats identically (the callback is skipped).
- `assert` statements (non-NULL pointer preconditions) are elided: the
  embedding works on values, not pointers.
- Calls into the transport (`axon_connect`, `axon_vsend`, ...) and into user
  callbacks are recorded as events in the returned trace.
-/

abbrev CStr := List Char

/-- Model of cJSON values. -/
inductive Json where
  | null : Json
  | boolean : Bool → Json
  | num : Int → Json
  | str : CStr → Json
  | arr : List Json → Json
  | obj : List (CStr × Json) → Json

/-- Model of cJSON_GetObjectItemCaseSensitive: first member with the given
name, NULL when absent or when the value is not an object. -/
def cJSON_GetObjectItemCaseSensitive (j : Json) (name : CStr) : Option Json :=
  match j with
  | .obj members => members.lookup name
  | _ => none

/-- Model of cJSON_GetStringValue: the string payload, NULL for non-strings. -/
def cJSON_GetStringValue (j : Json) : Option CStr :=
  match j with
  | .str s => some s
  | _ => none

/-- Model of cJSON_GetNumberValue: the numeric payload, NaN (here `none`) for
non-numbers. -/
def cJSON_GetNumberValue (j : Json) : Option Int :=
  match j with
  | .num n => some n
  | _ => none

/-- Items of an array, as enumerated by cJSON_GetArraySize/cJSON_GetArrayItem
(zero items for a non-array). -/
def cJSON_arrayItems (j : Json) : List Json :=
  match j with
  | .arr items => items
  | _ => []

/-- Model of cJSON_DetachItemFromObjectCaseSensitive: detaches the first
member with the given name, returning it together with the remaining object. -/
def cJSON_DetachItemFromObjectCaseSensitive (j : Json) (name : CStr) : Option Json × Json :=
  match j with
  | .obj members =>
    match members.lookup name with
    | some v => (some v, .obj (members.eraseP (fun m => m.1 == name)))
    | none => (none, j)
  | _ => (none, j)

/-- Model of cJSON_AddStringToObject (appends a string member; no-op on a
non-object, mirroring cJSON's failure there). -/
def cJSON_AddStringToObject (j : Json) (name : CStr) (v : CStr) : Json :=
  match j with
  | .obj members => .obj (members ++ [(name, .str v)])
  | _ => j

/-- The cote instance type (cote_enum_e in cote.h). -/
inductive cote_enum_e where
  | COTE_TYPE_PUB
  | COTE_TYPE_SUB
  | COTE_TYPE_REQ
  | COTE_TYPE_REP
  | COTE_TYPE_MON
deriving DecidableEq

export cote_enum_e (COTE_TYPE_PUB COTE_TYPE_SUB COTE_TYPE_REQ COTE_TYPE_REP COTE_TYPE_MON)

/-- A subscription entry (cote_sub_t): stored fulltopic, callback function
pointer, user pointer. The daisy chain is modelled as a `List`. -/
structure cote_sub_t where
  topic : CStr
  fct : Nat
  user : Nat
deriving DecidableEq

/-- Model of cote_axon_format_fulltopic: PUB/SUB prepend "message::" and the
optional "namespace::"; REQ/REP return a copy of the topic; MON has no
defined branch and returns NULL. -/
def cote_axon_format_fulltopic (type_ : cote_enum_e) (namespace_ : Option CStr)
    (topic : CStr) : Option CStr :=
  match type_ with
  | COTE_TYPE_PUB | COTE_TYPE_SUB =>
    some ("message::".data ++
      (match namespace_ with
       | some n => n ++ "::".data
       | none => []) ++ topic)
  | COTE_TYPE_REQ | COTE_TYPE_REP => some topic
  | COTE_TYPE_MON => none

/-- The update-or-append loop of cote_subscribe: the first entry whose stored
fulltopic equals the new fulltopic gets its callback and user pointer
overwritten in place; when none matches, a fresh entry is appended at the
tail. -/
def subsUpdate (fulltopic : CStr) (fct user : Nat) :
    List cote_sub_t → List cote_sub_t
  | [] => [⟨fulltopic, fct, user⟩]
  | s :: rest =>
    if s.topic = fulltopic then
      ⟨s.topic, fct, user⟩ :: rest
    else
      s :: subsUpdate fulltopic fct user rest

/-- Model of cote_subscribe: fails (`none`, C return -1) for roles other than
SUB and REP; otherwise formats the fulltopic and updates or appends the
subscription list (allocation failures are not modelled). -/
def cote_subscribe (type_ : cote_enum_e) (namespace_ : Option CStr)
    (subs : List cote_sub_t) (topic : CStr) (fct user : Nat) :
    Option (List cote_sub_t) :=
  if type_ ≠ COTE_TYPE_SUB ∧ type_ ≠ COTE_TYPE_REP then
    none
  else
    match cote_axon_format_fulltopic type_ namespace_ topic with
    | none => none
    | some fulltopic => some (subsUpdate fulltopic fct user subs)

example : cote_subscribe COTE_TYPE_SUB (some "n".data) [] "t".data 1 2
    = some [⟨"message::n::t".data, 1, 2⟩] := by decide

example : cote_subscribe COTE_TYPE_REP none [⟨"t".data, 1, 2⟩] "t".data 3 4
    = some [⟨"t".data, 3, 4⟩] := by decide

example : cote_subscribe COTE_TYPE_PUB none [] "t".data 1 2 = none := by decide

/-- A registered event callback slot (function pointer + user pointer). -/
structure cote_cb_slot where
  fct : Nat
  user : Nat
deriving DecidableEq

/-- The four event callback slots of a cote instance (cote_t.cb). -/
structure cote_cb_t where
  message : cote_cb_slot
  added : cote_cb_slot
  removed : cote_cb_slot
  error : cote_cb_slot
deriving DecidableEq

/-- Model of cote_on: records the callback in the slot selected by the event
name; an unrecognized event name falls through every branch, leaving the
slots untouched; the function always returns 0. -/
def cote_on (cb : cote_cb_t) (topic : CStr) (fct user : Nat) : Int × cote_cb_t :=
  if topic = "added".data then
    (0, { cb with added := ⟨fct, user⟩ })
  else if topic = "removed".data then
    (0, { cb with removed := ⟨fct, user⟩ })
  else if topic = "message".data then
    (0, { cb with message := ⟨fct, user⟩ })
  else if topic = "error".data then
    (0, { cb with error := ⟨fct, user⟩ })
  else
    (0, cb)

/-- An AMP message field (amp_field_t): a type tag together with the data
pointer's contents; `none` models a NULL data pointer. -/
inductive amp_field_t where
  | blob (data : Option (List Nat))
  | str (data : Option CStr)
  | bigint (data : Option Int)
  | json (data : Option Json)

/-- An AMP message (amp_msg_t): the daisy chain of fields from first to last;
a message with NULL first/last pointers is the empty list. -/
abbrev amp_msg_t := List amp_field_t

/-- The string payload of a field, when the field is a string with non-NULL
data (the `AMP_TYPE_STRING == type && NULL != data` test of the router). -/
def amp_field_string (f : amp_field_t) : Option CStr :=
  match f with
  | .str (some s) => some s
  | _ => none

/-- The JSON payload of a field, when the field is JSON with non-NULL data
(the `AMP_TYPE_JSON == type && NULL != data` test of the router). -/
def amp_field_json (f : amp_field_t) : Option Json :=
  match f with
  | .json (some j) => some j
  | _ => none

/-- One invocation of a subscription callback, as recorded by the router
trace: function pointer, topic argument, message argument, user pointer,
and the value the callback returned. -/
structure sub_invocation where
  fct : Nat
  topic : CStr
  msg : amp_msg_t
  user : Nat
  ret : Option amp_msg_t

/-- Result of the router: the reply handed back to the transport, the trace
of subscription-callback invocations (in order), and whether the global
message callback was invoked. -/
structure router_result where
  reply : Option amp_msg_t
  invocations : List sub_invocation
  message_cb_invoked : Bool

/-- Behaviour of the subscription callback function pointers: given a non-NULL
function pointer and the (topic, message, user) arguments, the value the
callback returns. -/
abbrev call_env := Nat → CStr → amp_msg_t → Nat → Option amp_msg_t

/-- Abstraction of regcomp+regexec on a stored pattern and a subject string;
`false` covers both compilation failure and no-match (the code skips the
callback in both cases). -/
abbrev regex_env := CStr → CStr → Bool

/-- The dispatch loop shared by the SUB and REP branches of
cote_axon_message_cb: walk the subscription chain; for every entry with a
non-NULL callback whose stored pattern regex-matches `mtopic`, invoke the
callback with (`ctopic`, `msg`, user) and overwrite the running reply `ret0`
with its return value (unconditionally, even when it returns NULL). -/
def cote_dispatch (rx : regex_env) (callFn : call_env) (ctopic mtopic : CStr)
    (msg : amp_msg_t) (ret0 : Option amp_msg_t) :
    List cote_sub_t → Option amp_msg_t × List sub_invocation
  | [] => (ret0, [])
  | s :: rest =>
    if s.fct ≠ 0 ∧ rx s.topic mtopic then
      let r := callFn s.fct ctopic msg s.user
      let tail := cote_dispatch rx callFn ctopic mtopic msg r rest
      (tail.1, ⟨s.fct, ctopic, msg, s.user, r⟩ :: tail.2)
    else
      cote_dispatch rx callFn ctopic mtopic msg ret0 rest

/-- Model of cote_axon_message_cb. Early NULL return for roles other than
SUB/REP and for messages with no field. Then the global message callback is
invoked when configured. SUB: when subscriptions exist and the first field is
a string, detach it, compute the stripped topic by skipping "message::" and
the namespace prefix, and dispatch. REP: when subscriptions exist and the
first field is JSON, detach its "type" member; when that is a string,
dispatch on it (the message keeps the first JSON field minus "type"). -/
def cote_axon_message_cb (type_ : cote_enum_e) (namespace_ : Option CStr)
    (subs : List cote_sub_t) (message_cb_set : Bool) (rx : regex_env)
    (callFn : call_env) (amp : amp_msg_t) : router_result :=
  if type_ ≠ COTE_TYPE_SUB ∧ type_ ≠ COTE_TYPE_REP then
    ⟨none, [], false⟩
  else
    match amp with
    | [] => ⟨none, [], false⟩
    | first :: rest =>
      if type_ = COTE_TYPE_SUB then
        match subs, amp_field_string first with
        | _ :: _, some topicStr =>
          let stripped := topicStr.drop ("message::".data.length +
            (match namespace_ with
             | some n => n.length + "::".data.length
             | none => 0))
          let d := cote_dispatch rx callFn stripped topicStr rest none subs
          ⟨d.1, d.2, message_cb_set⟩
        | _, _ => ⟨none, [], message_cb_set⟩
      else
        match subs, amp_field_json first with
        | _ :: _, some firstJson =>
          let det := cJSON_DetachItemFromObjectCaseSensitive firstJson "type".data
          match det.1 with
          | some tval =>
            match cJSON_GetStringValue tval with
            | some topicStr =>
              let msg' := amp_field_t.json (some det.2) :: rest
              let d := cote_dispatch rx callFn topicStr topicStr msg' none subs
              ⟨d.1, d.2, message_cb_set⟩
            | none => ⟨none, [], message_cb_set⟩
          | none => ⟨none, [], message_cb_set⟩
        | _, _ => ⟨none, [], message_cb_set⟩

/-- A call into the transport made by cote_send: either a publish
(axon_vsend with the full field list, fulltopic prepended) or a
request/await-reply (axon_send of one JSON field with a timeout). -/
inductive send_effect where
  | vsend (fields : List amp_field_t)
  | send_await (json : Json) (timeout : Int)

/-- Model of cote_send. The variadic arguments are modelled per role: for PUB
they are the field list `fields`; for REQ the code reads one (type, value)
pair then the reply pointer and the timeout, modelled by `first_field`
(the pair) and `timeout`. Returns the C return code together with the
transport call made, if any; `vsend_ret`/`send_ret` supply the transport's
return codes. Non-PUB/REQ roles fail immediately. REQ with a non-JSON first
field, or a NULL JSON value, never builds a body and fails. -/
def cote_send (type_ : cote_enum_e) (namespace_ : Option CStr) (topic : CStr)
    (fields : List amp_field_t) (first_field : amp_field_t)
    (timeout : Int) (vsend_ret send_ret : Int) : Int × Option send_effect :=
  if type_ ≠ COTE_TYPE_PUB ∧ type_ ≠ COTE_TYPE_REQ then
    (-1, none)
  else if type_ = COTE_TYPE_PUB then
    match cote_axon_format_fulltopic type_ namespace_ topic with
    | none => (-1, none)
    | some fulltopic =>
      (vsend_ret, some (.vsend (amp_field_t.str (some fulltopic) :: fields)))
  else
    match amp_field_json first_field with
    | some j =>
      (send_ret, some (.send_await (cJSON_AddStringToObject j "type".data topic) timeout))
    | none => (-1, none)


/-- A node observed through a discovery event (discover_node_t): its address,
hostname, and JSON advertisement (NULL when the hello carried none). -/
structure discover_node_t where
  address : CStr
  hostname : CStr
  advertisement : Option Json

/-- Model of cote_discovery_check_node: 0 when the node is valid, -1
otherwise. Requires an advertisement; for non-MON instances additionally
requires the role-paired axon_type, the fixed key "$$", and a namespace
agreeing with the local namespace option (present with the same string when
the local one is set, absent when it is not). MON skips everything past the
advertisement-existence check. -/
def cote_discovery_check_node (type_ : cote_enum_e) (namespace_ : Option CStr)
    (node : discover_node_t) : Int :=
  match node.advertisement with
  | none => -1
  | some adv =>
    if type_ = COTE_TYPE_MON then 0
    else
      match cJSON_GetObjectItemCaseSensitive adv "axon_type".data with
      | none => -1
      | some axonType =>
        let expected : CStr :=
          match type_ with
          | COTE_TYPE_PUB => "sub-emitter".data
          | COTE_TYPE_SUB => "pub-emitter".data
          | COTE_TYPE_REQ => "rep".data
          | COTE_TYPE_REP => "req".data
          | COTE_TYPE_MON => []
        if cJSON_GetStringValue axonType ≠ some expected then -1
        else
          match cJSON_GetObjectItemCaseSensitive adv "key".data with
          | none => -1
          | some key =>
            if cJSON_GetStringValue key ≠ some "$$".data then -1
            else
              let nsPeer := cJSON_GetObjectItemCaseSensitive adv "namespace".data
              match namespace_ with
              | some localNs =>
                match nsPeer with
                | none => -1
                | some nsVal =>
                  if cJSON_GetStringValue nsVal ≠ some localNs then -1 else 0
              | none =>
                match nsPeer with
                | some _ => -1
                | none => 0

/-- The double loop of cote_discovery_added_cb comparing the local client
topic patterns against the peer's server topic strings: a NULL local list
matches unconditionally; a NULL (or absent) server list never matches;
otherwise some (pattern, string) pair must regex-match. -/
def cote_topics_match (rx : regex_env) (client_topics server_topics : Option Json) : Bool :=
  match client_topics with
  | none => true
  | some ct =>
    match server_topics with
    | none => false
    | some st =>
      (cJSON_arrayItems ct).any fun c =>
        (cJSON_arrayItems st).any fun s =>
          match cJSON_GetStringValue c, cJSON_GetStringValue s with
          | some p, some v => rx p v
          | _, _ => false

/-- Externally observable actions of the discovery added handler: a call to
axon_connect, the invocation of the user's added callback, the invocation of
the user's error callback. -/
inductive added_event where
  | connect (endpoint : CStr) (port : Nat)
  | added_cb (user : Nat)
  | error_cb

/-- Environment of the added handler: axon_is_connected, the success of
axon_connect, and the regex semantics. -/
structure added_env where
  is_connected : CStr → Nat → Bool
  connect_ok : CStr → Nat → Bool
  rx : regex_env

/-- The port read by the added handler from the peer advertisement:
the "port" member's number cast to uint16_t, 0 when the member is absent
(a non-number member, NaN in cJSON, is modelled as 0 as well). -/
def cote_added_port (adv : Json) : Nat :=
  match cJSON_GetObjectItemCaseSensitive adv "port".data with
  | some p =>
    match cJSON_GetNumberValue p with
    | some v => (v % 65536).toNat
    | none => 0
  | none => 0

/-- Model of cote_discovery_added_cb, returning the trace of its externally
observable actions in order. An invalid node (cote_discovery_check_node)
produces nothing. SUB/REQ then require a positive port, no existing
connection to the peer endpoint, and a topic intersection, then call
axon_connect; on connect failure the error callback fires (when set) and the
added callback does not. Finally the user's added callback fires when set. -/
def cote_discovery_added_cb (type_ : cote_enum_e) (namespace_ : Option CStr)
    (use_hostname : Bool) (subscribesTo requests : Option Json)
    (added_cb_set : Bool) (added_user : Nat) (error_cb_set : Bool)
    (env : added_env) (node : discover_node_t) : List added_event :=
  if cote_discovery_check_node type_ namespace_ node ≠ 0 then []
  else
    let tail := if added_cb_set then [added_event.added_cb added_user] else []
    if type_ = COTE_TYPE_SUB ∨ type_ = COTE_TYPE_REQ then
      let port :=
        match node.advertisement with
        | some adv => cote_added_port adv
        | none => 0
      if port = 0 then []
      else
        let endpoint := if use_hostname then node.hostname else node.address
        if env.is_connected endpoint port then []
        else
          let server_topics := node.advertisement.bind fun adv =>
            cJSON_GetObjectItemCaseSensitive adv
              (if type_ = COTE_TYPE_SUB then "broadcasts".data else "respondsTo".data)
          let client_topics :=
            if type_ = COTE_TYPE_SUB then subscribesTo else requests
          if ¬ cote_topics_match env.rx client_topics server_topics then []
          else if env.connect_ok endpoint port then
            added_event.connect endpoint port :: tail
          else
            added_event.connect endpoint port ::
              (if error_cb_set then [added_event.error_cb] else [])
    else
      tail

/-- Model of cote_discovery_removed_cb: validates the node exactly like the
added handler and then invokes the user's removed callback when set; returns
whether the user callback was invoked. -/
def cote_discovery_removed_cb (type_ : cote_enum_e) (namespace_ : Option CStr)
    (removed_cb_set : Bool) (node : discover_node_t) : Bool :=
  if cote_discovery_check_node type_ namespace_ node ≠ 0 then false
  else removed_cb_set

section Lemmas

/-- Updating a list holding at most one entry for the fulltopic leaves exactly
one entry for it, carrying the new callback and user pointer. -/
theorem subsUpdate_filter_eq (ft : CStr) (f u : Nat) :
    ∀ l : List cote_sub_t,
      (l.filter (fun s => s.topic = ft)).length ≤ 1 →
      (subsUpdate ft f u l).filter (fun s => s.topic = ft) = [⟨ft, f, u⟩]
  | [], _ => by simp [subsUpdate]
  | s :: rest, h => by
    by_cases hs : s.topic = ft
    · have hrest : rest.filter (fun s => s.topic = ft) = [] := by
        rw [List.filter_cons_of_pos (by simpa using hs)] at h
        simp only [List.length_cons] at h
        exact List.length_eq_zero.mp (by omega)
      simp [subsUpdate, hs, hrest]
    · have h' : (rest.filter (fun s => s.topic = ft)).length ≤ 1 := by
        rwa [List.filter_cons_of_neg (by simpa using hs)] at h
      simpa [subsUpdate, hs] using subsUpdate_filter_eq ft f u rest h'

/-- The update loop always leaves an entry for the fulltopic in the list. -/
theorem subsUpdate_mem (ft : CStr) (f u : Nat) :
    ∀ l : List cote_sub_t, ∃ s ∈ subsUpdate ft f u l, s.topic = ft
  | [] => ⟨⟨ft, f, u⟩, by simp [subsUpdate]⟩
  | s :: rest => by
    by_cases hs : s.topic = ft
    · exact ⟨⟨s.topic, f, u⟩, by simp [subsUpdate, hs]⟩
    · obtain ⟨w, hw, hwt⟩ := subsUpdate_mem ft f u rest
      exact ⟨w, by simp [subsUpdate, hs, hw], hwt⟩

/-- When the list already holds an entry for the fulltopic, the update loop
rewrites it in place and the length does not change. -/
theorem subsUpdate_length (ft : CStr) (f u : Nat) :
    ∀ l : List cote_sub_t, (∃ s ∈ l, s.topic = ft) →
      (subsUpdate ft f u l).length = l.length
  | [], h => by simp at h
  | s :: rest, h => by
    by_cases hs : s.topic = ft
    · simp [subsUpdate, hs]
    · obtain ⟨w, hw, hwt⟩ := h
      rcases List.mem_cons.mp hw with hw | hw
      · exact absurd (hw ▸ hwt) hs
      · simp [subsUpdate, hs, subsUpdate_length ft f u rest ⟨w, hw, hwt⟩]

end Lemmas

/-- C6: the topic namer returns exactly "message::n::t" on a PUB or SUB node
with namespace "n" set, exactly "message::t" on a PUB or SUB node with no
namespace, and a copy of the literal user topic on a REQ or REP node. -/
theorem cote_axon_format_fulltopic_C6 (n t : CStr) :
    cote_axon_format_fulltopic COTE_TYPE_PUB (some n) t
        = some ("message::".data ++ n ++ "::".data ++ t)
    ∧ cote_axon_format_fulltopic COTE_TYPE_SUB (some n) t
        = some ("message::".data ++ n ++ "::".data ++ t)
    ∧ cote_axon_format_fulltopic COTE_TYPE_PUB none t = some ("message::".data ++ t)
    ∧ cote_axon_format_fulltopic COTE_TYPE_SUB none t = some ("message::".data ++ t)
    ∧ cote_axon_format_fulltopic COTE_TYPE_REQ (some n) t = some t
    ∧ cote_axon_format_fulltopic COTE_TYPE_REQ none t = some t
    ∧ cote_axon_format_fulltopic COTE_TYPE_REP (some n) t = some t
    ∧ cote_axon_format_fulltopic COTE_TYPE_REP none t = some t := by
  refine ⟨?_, ?_, ?_, ?_, rfl, rfl, rfl, rfl⟩ <;>
    simp [cote_axon_format_fulltopic, List.append_assoc]

/-- C1: on a SUB or REP node, subscribing twice to the same topic (starting
from a table holding at most one entry for its fulltopic) leaves exactly one
entry for that fulltopic, carrying the second callback and its user pointer,
and does not grow the table (the second subscribe updates in place). -/
theorem cote_subscribe_C1 (type_ : cote_enum_e)
    (hrole : type_ = COTE_TYPE_SUB ∨ type_ = COTE_TYPE_REP)
    (namespace_ : Option CStr) (t ft : CStr) (f1 u1 f2 u2 : Nat)
    (s0 s1 s2 : List cote_sub_t)
    (hft : cote_axon_format_fulltopic type_ namespace_ t = some ft)
    (hinv : (s0.filter (fun s => s.topic = ft)).length ≤ 1)
    (h1 : cote_subscribe type_ namespace_ s0 t f1 u1 = some s1)
    (h2 : cote_subscribe type_ namespace_ s1 t f2 u2 = some s2) :
    s2.filter (fun s => s.topic = ft) = [⟨ft, f2, u2⟩] ∧ s2.length = s1.length := by
  have hguard : ¬(type_ ≠ COTE_TYPE_SUB ∧ type_ ≠ COTE_TYPE_REP) := by
    rcases hrole with h | h <;> simp [h]
  rw [cote_subscribe, if_neg hguard, hft] at h1 h2
  obtain rfl : subsUpdate ft f1 u1 s0 = s1 := by injection h1
  obtain rfl : subsUpdate ft f2 u2 (subsUpdate ft f1 u1 s0) = s2 := by injection h2
  have hfilter1 : (subsUpdate ft f1 u1 s0).filter (fun s => s.topic = ft) = [⟨ft, f1, u1⟩] :=
    subsUpdate_filter_eq ft f1 u1 s0 hinv
  refine ⟨subsUpdate_filter_eq ft f2 u2 _ (by rw [hfilter1]; simp), ?_⟩
  exact subsUpdate_length ft f2 u2 _ (subsUpdate_mem ft f1 u1 s0)

/-- Witness for C1 at a concrete input: a SUB node with no namespace,
subscribing topic "t" with (1, 2) then (5, 6). -/
theorem cote_subscribe_C1_witness :
    ([⟨"message::t".data, 5, 6⟩] : List cote_sub_t).filter
        (fun s => s.topic = "message::t".data) = [⟨"message::t".data, 5, 6⟩]
    ∧ ([⟨"message::t".data, 5, 6⟩] : List cote_sub_t).length
        = ([⟨"message::t".data, 1, 2⟩] : List cote_sub_t).length :=
  cote_subscribe_C1 COTE_TYPE_SUB (Or.inl rfl) none "t".data "message::t".data
    1 2 5 6 [] [⟨"message::t".data, 1, 2⟩] [⟨"message::t".data, 5, 6⟩]
    (by decide) (by decide) (by decide) (by decide)

/-- C10: cote_on returns 0 for every event name, and an event name other than
"added", "removed", "message", "error" leaves all four callback slots (and
their user pointers) unchanged. -/
theorem cote_on_C10 (cb : cote_cb_t) (topic : CStr) (fct user : Nat) :
    (cote_on cb topic fct user).1 = 0
    ∧ (topic ≠ "added".data → topic ≠ "removed".data → topic ≠ "message".data →
        topic ≠ "error".data → (cote_on cb topic fct user).2 = cb) := by
  constructor
  · rw [cote_on]
    split <;> try rfl
    split <;> try rfl
    split <;> try rfl
    split <;> rfl
  · intro h1 h2 h3 h4
    rw [cote_on, if_neg h1, if_neg h2, if_neg h3, if_neg h4]

/-- Witness for C10 at a concrete input: event name "zzz" on zeroed slots. -/
theorem cote_on_C10_witness :
    (cote_on ⟨⟨0, 0⟩, ⟨0, 0⟩, ⟨0, 0⟩, ⟨0, 0⟩⟩ "zzz".data 3 4).1 = 0
    ∧ (cote_on ⟨⟨0, 0⟩, ⟨0, 0⟩, ⟨0, 0⟩, ⟨0, 0⟩⟩ "zzz".data 3 4).2
        = ⟨⟨0, 0⟩, ⟨0, 0⟩, ⟨0, 0⟩, ⟨0, 0⟩⟩ :=
  ⟨(cote_on_C10 _ _ _ _).1,
   (cote_on_C10 _ _ _ _).2 (by decide) (by decide) (by decide) (by decide)⟩

/-- C8: cote_send fails with -1 and no transport call for every role other
than PUB and REQ, and on a REQ node it also fails with -1 and no transport
call when the first variadic field is not a JSON field or its JSON value is
NULL. -/
theorem cote_send_C8 (type_ : cote_enum_e) (namespace_ : Option CStr)
    (topic : CStr) (fields : List amp_field_t) (first_field : amp_field_t)
    (timeout vsend_ret send_ret : Int) :
    (type_ ≠ COTE_TYPE_PUB → type_ ≠ COTE_TYPE_REQ →
      cote_send type_ namespace_ topic fields first_field timeout vsend_ret send_ret
        = (-1, none))
    ∧ (type_ = COTE_TYPE_REQ → amp_field_json first_field = none →
      cote_send type_ namespace_ topic fields first_field timeout vsend_ret send_ret
        = (-1, none)) := by
  constructor
  · intro h1 h2
    rw [cote_send, if_pos ⟨h1, h2⟩]
  · rintro rfl hjson
    rw [cote_send, if_neg (by simp), if_neg (by simp), hjson]

/-- Witness for C8 at concrete inputs: a MON node, and a REQ node whose first
variadic field is a string. -/
theorem cote_send_C8_witness :
    cote_send COTE_TYPE_MON none "t".data [] (.str (some "x".data)) 0 0 0 = (-1, none)
    ∧ cote_send COTE_TYPE_REQ none "t".data [] (.str (some "x".data)) 0 0 0 = (-1, none) :=
  ⟨(cote_send_C8 COTE_TYPE_MON none "t".data [] (.str (some "x".data)) 0 0 0).1
      (by decide) (by decide),
   (cote_send_C8 COTE_TYPE_REQ none "t".data [] (.str (some "x".data)) 0 0 0).2
      rfl rfl⟩

/-- The subscription entries whose stored pattern regex-matches the inbound
topic and whose callback pointer is non-NULL; dispatch invokes exactly
these, in insertion order. -/
def matching_subs (rx : regex_env) (mtopic : CStr) (subs : List cote_sub_t) :
    List cote_sub_t :=
  subs.filter (fun s => decide (s.fct ≠ 0 ∧ rx s.topic mtopic))

/-- The invocation records produced by dispatching to the given entries with
a fixed callback topic and message. -/
def invocations_of (callFn : call_env) (ctopic : CStr) (msg : amp_msg_t)
    (subs : List cote_sub_t) : List sub_invocation :=
  subs.map fun s => ⟨s.fct, ctopic, msg, s.user, callFn s.fct ctopic msg s.user⟩

/-- Dispatch invokes exactly the matching entries in order, and the reply is
the return value of the last invocation (the initial value when none
matches): every invocation overwrites the running reply unconditionally. -/
theorem cote_dispatch_spec (rx : regex_env) (callFn : call_env)
    (ctopic mtopic : CStr) (msg : amp_msg_t) :
    ∀ (subs : List cote_sub_t) (ret0 : Option amp_msg_t),
      cote_dispatch rx callFn ctopic mtopic msg ret0 subs
        = ((((invocations_of callFn ctopic msg (matching_subs rx mtopic subs)).map
              sub_invocation.ret).getLastD ret0),
           invocations_of callFn ctopic msg (matching_subs rx mtopic subs))
  | [], ret0 => by simp [cote_dispatch, matching_subs, invocations_of]
  | s :: rest, ret0 => by
    by_cases hc : s.fct ≠ 0 ∧ rx s.topic mtopic
    · have ih := cote_dispatch_spec rx callFn ctopic mtopic msg rest
        (callFn s.fct ctopic msg s.user)
      have hdec : decide (s.fct ≠ 0 ∧ rx s.topic mtopic) = true := by simpa using hc
      simp only [cote_dispatch, if_pos hc, ih, matching_subs, invocations_of,
        List.filter_cons, hdec, if_true, List.map_cons, List.getLastD_cons]
    · have ih := cote_dispatch_spec rx callFn ctopic mtopic msg rest ret0
      have hdec : decide (s.fct ≠ 0 ∧ rx s.topic mtopic) = false := by simpa using hc
      simp only [cote_dispatch, if_neg hc, ih, matching_subs, invocations_of,
        List.filter_cons, hdec, if_false, Bool.false_eq_true]

/-- C4 counterexample: a REP node with two subscriptions both matching topic
"t"; the first callback returns a non-NULL reply, the second returns NULL.
Both matching callbacks are invoked, yet the reply handed to the transport is
NULL: the later NULL return overwrites the earlier non-NULL one, so the reply
is not the last non-null value among the matching callbacks' returns. -/
theorem cote_axon_message_cb_C4_counterexample :
    ((cote_axon_message_cb COTE_TYPE_REP none
        [⟨"t".data, 1, 0⟩, ⟨"t".data, 2, 0⟩] false
        (fun p s => p == s)
        (fun f _ _ _ => if f = 1 then some [amp_field_t.bigint (some 42)] else none)
        [amp_field_t.json (some (.obj [("type".data, .str "t".data)]))]).invocations.map
          sub_invocation.ret
      = [some [amp_field_t.bigint (some 42)], none])
    ∧ (cote_axon_message_cb COTE_TYPE_REP none
        [⟨"t".data, 1, 0⟩, ⟨"t".data, 2, 0⟩] false
        (fun p s => p == s)
        (fun f _ _ _ => if f = 1 then some [amp_field_t.bigint (some 42)] else none)
        [amp_field_t.json (some (.obj [("type".data, .str "t".data)]))]).reply
      = none :=
  ⟨rfl, rfl⟩

/-- C4 (amended): for a REP node receiving a message whose first field is a
JSON object with a string "type" member, all matching subscription callbacks
are invoked in insertion order, and the reply returned to the transport is
the return value of the last matching callback (NULL when none matches); a
NULL return from a later matching callback overwrites an earlier non-NULL
reply. -/
theorem cote_axon_message_cb_C4 (namespace_ : Option CStr)
    (subs : List cote_sub_t) (mcb : Bool) (rx : regex_env) (callFn : call_env)
    (j tval : Json) (rest : amp_msg_t) (t : CStr)
    (hdet : (cJSON_DetachItemFromObjectCaseSensitive j "type".data).1 = some tval)
    (hstr : cJSON_GetStringValue tval = some t) :
    (cote_axon_message_cb COTE_TYPE_REP namespace_ subs mcb rx callFn
        (amp_field_t.json (some j) :: rest)).invocations
      = invocations_of callFn t
          (amp_field_t.json (some (cJSON_DetachItemFromObjectCaseSensitive j "type".data).2) :: rest)
          (matching_subs rx t subs)
    ∧ (cote_axon_message_cb COTE_TYPE_REP namespace_ subs mcb rx callFn
        (amp_field_t.json (some j) :: rest)).reply
      = ((cote_axon_message_cb COTE_TYPE_REP namespace_ subs mcb rx callFn
          (amp_field_t.json (some j) :: rest)).invocations.map
            sub_invocation.ret).getLastD none := by
  cases subs with
  | nil =>
    simp [cote_axon_message_cb, matching_subs, invocations_of]
  | cons s ss =>
    have hd := cote_dispatch_spec rx callFn t t
      (amp_field_t.json (some (cJSON_DetachItemFromObjectCaseSensitive j "type".data).2) :: rest)
      (s :: ss) none
    simp [cote_axon_message_cb, amp_field_json, hdet, hstr, hd]

/-- Witness for C4 (amended) at a concrete input: the two-subscription REP
setup of the counterexample. -/
theorem cote_axon_message_cb_C4_witness :
    (cote_axon_message_cb COTE_TYPE_REP none
        [⟨"t".data, 1, 0⟩, ⟨"t".data, 2, 0⟩] false
        (fun p s => p == s)
        (fun f _ _ _ => if f = 1 then some [amp_field_t.bigint (some 42)] else none)
        (amp_field_t.json (some (.obj [("type".data, .str "t".data)])) :: [])).invocations
      = invocations_of
          (fun f _ _ _ => if f = 1 then some [amp_field_t.bigint (some 42)] else none)
          "t".data
          (amp_field_t.json (some (cJSON_DetachItemFromObjectCaseSensitive
            (.obj [("type".data, .str "t".data)]) "type".data).2) :: [])
          (matching_subs (fun p s => p == s) "t".data
            [⟨"t".data, 1, 0⟩, ⟨"t".data, 2, 0⟩])
    ∧ (cote_axon_message_cb COTE_TYPE_REP none
        [⟨"t".data, 1, 0⟩, ⟨"t".data, 2, 0⟩] false
        (fun p s => p == s)
        (fun f _ _ _ => if f = 1 then some [amp_field_t.bigint (some 42)] else none)
        (amp_field_t.json (some (.obj [("type".data, .str "t".data)])) :: [])).reply
      = ((cote_axon_message_cb COTE_TYPE_REP none
          [⟨"t".data, 1, 0⟩, ⟨"t".data, 2, 0⟩] false
          (fun p s => p == s)
          (fun f _ _ _ => if f = 1 then some [amp_field_t.bigint (some 42)] else none)
          (amp_field_t.json (some (.obj [("type".data, .str "t".data)])) :: [])).invocations.map
            sub_invocation.ret).getLastD none :=
  cote_axon_message_cb_C4 none [⟨"t".data, 1, 0⟩, ⟨"t".data, 2, 0⟩] false
    (fun p s => p == s)
    (fun f _ _ _ => if f = 1 then some [amp_field_t.bigint (some 42)] else none)
    (.obj [("type".data, .str "t".data)]) (.str "t".data) [] "t".data rfl rfl

/-- Skipping the "message::" prefix and the "namespace::" prefix of a
formatted fulltopic leaves exactly the user topic. -/
theorem drop_fulltopic (n t : CStr) :
    ("message::".data ++ (n ++ "::".data) ++ t).drop
        ("message::".data.length + (n.length + "::".data.length)) = t :=
  List.drop_left' (by simp; omega)

/-- C5: a SUB node with namespace "n" holding one subscription made under
user topic "t" (stored fulltopic "message::n::t"), on receiving a message
whose first field is that fulltopic string, invokes the subscription
callback exactly once, with stripped topic exactly "t" and with the
remaining message (the topic field detached). -/
theorem cote_axon_message_cb_C5 (n t ft : CStr) (f u : Nat) (mcb : Bool)
    (rx : regex_env) (callFn : call_env) (rest : amp_msg_t)
    (hft : cote_axon_format_fulltopic COTE_TYPE_SUB (some n) t = some ft)
    (hf : f ≠ 0) (hrx : rx ft ft = true) :
    (cote_axon_message_cb COTE_TYPE_SUB (some n) [⟨ft, f, u⟩] mcb rx callFn
        (amp_field_t.str (some ft) :: rest)).invocations
      = [⟨f, t, rest, u, callFn f t rest u⟩] := by
  have hft' : ft = "message::".data ++ (n ++ "::".data) ++ t := by
    simpa [cote_axon_format_fulltopic] using hft.symm
  subst hft'
  have hrx' := hrx
  simp only [cote_axon_message_cb, amp_field_string, cote_dispatch,
    drop_fulltopic n t]
  simp at hrx'
  simp [hf, hrx']

/-- Witness for C5 at a concrete input: namespace "n", topic "t", an exact
string-equality regex environment, and a callback returning NULL. -/
theorem cote_axon_message_cb_C5_witness :
    (cote_axon_message_cb COTE_TYPE_SUB (some "n".data)
        [⟨"message::n::t".data, 1, 2⟩] false
        (fun p s => p == s) (fun _ _ _ _ => none)
        (amp_field_t.str (some "message::n::t".data) :: [])).invocations
      = [⟨1, "t".data, [], 2, none⟩] :=
  cote_axon_message_cb_C5 "n".data "t".data "message::n::t".data 1 2 false
    (fun p s => p == s) (fun _ _ _ _ => none) []
    (by decide) (by decide) (by decide)

/-- C7: malformed inbound messages are silently dropped. A message with zero
fields produces no reply, no subscription-callback invocation, and no global
message callback. On a SUB node, a first field that is not a (non-NULL)
string produces no reply and no subscription-callback invocation. On a REP
node, a first JSON field whose "type" member is absent or not a string
produces no reply and no subscription-callback invocation. -/
theorem cote_axon_message_cb_C7 :
    (∀ (type_ : cote_enum_e) (namespace_ : Option CStr)
        (subs : List cote_sub_t) (mcb : Bool) (rx : regex_env)
        (callFn : call_env),
      cote_axon_message_cb type_ namespace_ subs mcb rx callFn [] = ⟨none, [], false⟩)
    ∧ (∀ (namespace_ : Option CStr) (subs : List cote_sub_t) (mcb : Bool)
        (rx : regex_env) (callFn : call_env) (first : amp_field_t)
        (rest : amp_msg_t), amp_field_string first = none →
      (cote_axon_message_cb COTE_TYPE_SUB namespace_ subs mcb rx callFn
          (first :: rest)).reply = none
      ∧ (cote_axon_message_cb COTE_TYPE_SUB namespace_ subs mcb rx callFn
          (first :: rest)).invocations = [])
    ∧ (∀ (namespace_ : Option CStr) (subs : List cote_sub_t) (mcb : Bool)
        (rx : regex_env) (callFn : call_env) (j : Json) (rest : amp_msg_t),
      ((cJSON_DetachItemFromObjectCaseSensitive j "type".data).1.bind
          cJSON_GetStringValue) = none →
      (cote_axon_message_cb COTE_TYPE_REP namespace_ subs mcb rx callFn
          (amp_field_t.json (some j) :: rest)).reply = none
      ∧ (cote_axon_message_cb COTE_TYPE_REP namespace_ subs mcb rx callFn
          (amp_field_t.json (some j) :: rest)).invocations = []) := by
  refine ⟨?_, ?_, ?_⟩
  · intro type_ namespace_ subs mcb rx callFn
    cases type_ <;> rfl
  · intro namespace_ subs mcb rx callFn first rest h
    cases subs <;> simp [cote_axon_message_cb, h]
  · intro namespace_ subs mcb rx callFn j rest h
    cases hdet : (cJSON_DetachItemFromObjectCaseSensitive j "type".data).1 with
    | none => cases subs <;> simp [cote_axon_message_cb, amp_field_json, hdet]
    | some tval =>
      rw [hdet] at h
      simp only [Option.some_bind] at h
      constructor
      all_goals cases subs
      all_goals simp [cote_axon_message_cb, amp_field_json, hdet, h]

/-- Witness for C7 at concrete inputs: the empty message, a SUB message whose
first field is a big integer, and a REP message whose first JSON field is an
object with no "type" member. -/
theorem cote_axon_message_cb_C7_witness :
    cote_axon_message_cb COTE_TYPE_SUB none [⟨"t".data, 1, 0⟩] true
        (fun _ _ => true) (fun _ _ _ _ => none) [] = ⟨none, [], false⟩
    ∧ ((cote_axon_message_cb COTE_TYPE_SUB none [⟨"t".data, 1, 0⟩] true
        (fun _ _ => true) (fun _ _ _ _ => none)
        (amp_field_t.bigint (some 7) :: [])).reply = none
      ∧ (cote_axon_message_cb COTE_TYPE_SUB none [⟨"t".data, 1, 0⟩] true
        (fun _ _ => true) (fun _ _ _ _ => none)
        (amp_field_t.bigint (some 7) :: [])).invocations = [])
    ∧ ((cote_axon_message_cb COTE_TYPE_REP none [⟨"t".data, 1, 0⟩] true
        (fun _ _ => true) (fun _ _ _ _ => none)
        (amp_field_t.json (some (.obj [("x".data, .num 3)])) :: [])).reply = none
      ∧ (cote_axon_message_cb COTE_TYPE_REP none [⟨"t".data, 1, 0⟩] true
        (fun _ _ => true) (fun _ _ _ _ => none)
        (amp_field_t.json (some (.obj [("x".data, .num 3)])) :: [])).invocations = []) :=
  ⟨cote_axon_message_cb_C7.1 COTE_TYPE_SUB none [⟨"t".data, 1, 0⟩] true
      (fun _ _ => true) (fun _ _ _ _ => none),
   cote_axon_message_cb_C7.2.1 none [⟨"t".data, 1, 0⟩] true
      (fun _ _ => true) (fun _ _ _ _ => none) (amp_field_t.bigint (some 7)) [] rfl,
   cote_axon_message_cb_C7.2.2 none [⟨"t".data, 1, 0⟩] true
      (fun _ _ => true) (fun _ _ _ _ => none) (.obj [("x".data, .num 3)]) [] rfl⟩

/-- An invalid discovery node (check ≠ 0) makes the added handler return
without any observable action. -/
theorem cote_discovery_added_cb_invalid (type_ : cote_enum_e)
    (namespace_ : Option CStr) (uh : Bool) (st rq : Option Json) (acb : Bool)
    (au : Nat) (ecb : Bool) (env : added_env) (node : discover_node_t)
    (h : cote_discovery_check_node type_ namespace_ node ≠ 0) :
    cote_discovery_added_cb type_ namespace_ uh st rq acb au ecb env node = [] := by
  rw [cote_discovery_added_cb, if_pos h]

/-- Inversion of cote_discovery_check_node for non-MON instances: a valid
node carries an advertisement whose "key" member is the string "$$" and
whose "namespace" member agrees with the local namespace option. -/
theorem cote_discovery_check_node_inv (type_ : cote_enum_e)
    (namespace_ : Option CStr) (node : discover_node_t)
    (hmon : type_ ≠ COTE_TYPE_MON)
    (h : cote_discovery_check_node type_ namespace_ node = 0) :
    ∃ adv, node.advertisement = some adv
      ∧ (cJSON_GetObjectItemCaseSensitive adv "key".data).bind cJSON_GetStringValue
          = some "$$".data
      ∧ (match namespace_ with
         | some localNs =>
             (cJSON_GetObjectItemCaseSensitive adv "namespace".data).bind
               cJSON_GetStringValue = some localNs
         | none => cJSON_GetObjectItemCaseSensitive adv "namespace".data = none) := by
  rcases node with ⟨addr, host, adv?⟩
  cases adv? with
  | none => exact absurd h (by simp [cote_discovery_check_node])
  | some adv =>
    refine ⟨adv, rfl, ?_⟩
    simp only [cote_discovery_check_node, if_neg hmon] at h
    split at h
    · exact absurd h (by decide)
    · rename_i axonType hat
      split at h
      · exact absurd h (by decide)
      · split at h
        · exact absurd h (by decide)
        · rename_i key hkeymem
          split at h
          · exact absurd h (by decide)
          · rename_i hkeystr
            refine ⟨?_, ?_⟩
            · rw [hkeymem, Option.some_bind, not_ne_iff.mp hkeystr]
            · split at h
              · rename_i localNs
                split at h
                · exact absurd h (by decide)
                · rename_i nsVal hnsmem
                  split at h
                  · exact absurd h (by decide)
                  · rename_i hnsstr
                    simp only
                    rw [hnsmem, Option.some_bind, not_ne_iff.mp hnsstr]
              · split at h
                · exact absurd h (by decide)
                · rename_i hnsmem
                  simpa using hnsmem

/-- C2: on a non-MON node, a discovered peer whose advertisement lacks a
"key" member or whose "key" value differs from the string "$$" makes the
discovery added handler return without calling axon_connect and without
invoking the user's added callback. -/
theorem cote_discovery_added_cb_C2 (type_ : cote_enum_e)
    (namespace_ : Option CStr) (uh : Bool) (st rq : Option Json) (acb : Bool)
    (au : Nat) (ecb : Bool) (env : added_env) (node : discover_node_t)
    (adv : Json) (hmon : type_ ≠ COTE_TYPE_MON)
    (hadv : node.advertisement = some adv)
    (hkey : (cJSON_GetObjectItemCaseSensitive adv "key".data).bind
        cJSON_GetStringValue ≠ some "$$".data) :
    (∀ ep p, added_event.connect ep p ∉
        cote_discovery_added_cb type_ namespace_ uh st rq acb au ecb env node)
    ∧ (∀ w, added_event.added_cb w ∉
        cote_discovery_added_cb type_ namespace_ uh st rq acb au ecb env node) := by
  have hck : cote_discovery_check_node type_ namespace_ node ≠ 0 := by
    intro h0
    obtain ⟨adv', hadv', hkey', -⟩ :=
      cote_discovery_check_node_inv type_ namespace_ node hmon h0
    rw [hadv] at hadv'
    injection hadv' with he
    subst he
    exact hkey hkey'
  rw [cote_discovery_added_cb_invalid type_ namespace_ uh st rq acb au ecb env node hck]
  simp

/-- Witness for C2 at a concrete input: a SUB node and a peer whose
advertisement carries key "xx". -/
theorem cote_discovery_added_cb_C2_witness :
    added_event.connect "e".data 5 ∉
        cote_discovery_added_cb COTE_TYPE_SUB none false none none true 7 false
          ⟨fun _ _ => false, fun _ _ => true, fun _ _ => false⟩
          ⟨"a".data, "h".data, some (.obj [("key".data, .str "xx".data)])⟩
    ∧ added_event.added_cb 7 ∉
        cote_discovery_added_cb COTE_TYPE_SUB none false none none true 7 false
          ⟨fun _ _ => false, fun _ _ => true, fun _ _ => false⟩
          ⟨"a".data, "h".data, some (.obj [("key".data, .str "xx".data)])⟩ :=
  ⟨(cote_discovery_added_cb_C2 COTE_TYPE_SUB none false none none true 7 false
      ⟨fun _ _ => false, fun _ _ => true, fun _ _ => false⟩
      ⟨"a".data, "h".data, some (.obj [("key".data, .str "xx".data)])⟩
      (.obj [("key".data, .str "xx".data)])
      (by decide) rfl (by decide)).1 "e".data 5,
   (cote_discovery_added_cb_C2 COTE_TYPE_SUB none false none none true 7 false
      ⟨fun _ _ => false, fun _ _ => true, fun _ _ => false⟩
      ⟨"a".data, "h".data, some (.obj [("key".data, .str "xx".data)])⟩
      (.obj [("key".data, .str "xx".data)])
      (by decide) rfl (by decide)).2 7⟩

/-- C3: on a non-MON node, a discovered peer whose advertised "namespace"
differs from the local namespace option — a different string, a missing
member when the local namespace is set, or a present member when it is not —
makes the discovery added handler return without calling axon_connect. -/
theorem cote_discovery_added_cb_C3 (type_ : cote_enum_e)
    (namespace_ : Option CStr) (uh : Bool) (st rq : Option Json) (acb : Bool)
    (au : Nat) (ecb : Bool) (env : added_env) (node : discover_node_t)
    (adv : Json) (hmon : type_ ≠ COTE_TYPE_MON)
    (hadv : node.advertisement = some adv)
    (hns : match namespace_ with
           | some localNs =>
               (cJSON_GetObjectItemCaseSensitive adv "namespace".data).bind
                 cJSON_GetStringValue ≠ some localNs
           | none =>
               (cJSON_GetObjectItemCaseSensitive adv "namespace".data).isSome = true) :
    ∀ ep p, added_event.connect ep p ∉
        cote_discovery_added_cb type_ namespace_ uh st rq acb au ecb env node := by
  have hck : cote_discovery_check_node type_ namespace_ node ≠ 0 := by
    intro h0
    obtain ⟨adv', hadv', -, hns'⟩ :=
      cote_discovery_check_node_inv type_ namespace_ node hmon h0
    rw [hadv] at hadv'
    injection hadv' with he
    subst he
    cases namespace_ with
    | some localNs => exact hns hns'
    | none =>
      simp only at hns'
      rw [hns'] at hns
      simp at hns
  rw [cote_discovery_added_cb_invalid type_ namespace_ uh st rq acb au ecb env node hck]
  simp

/-- Witness for C3 at a concrete input: a REQ node with local namespace "n"
and a peer advertising namespace "m". -/
theorem cote_discovery_added_cb_C3_witness :
    added_event.connect "e".data 5 ∉
        cote_discovery_added_cb COTE_TYPE_REQ (some "n".data) false none none
          true 7 false
          ⟨fun _ _ => false, fun _ _ => true, fun _ _ => false⟩
          ⟨"a".data, "h".data, some (.obj [("namespace".data, .str "m".data)])⟩ :=
  cote_discovery_added_cb_C3 COTE_TYPE_REQ (some "n".data) false none none
    true 7 false
    ⟨fun _ _ => false, fun _ _ => true, fun _ _ => false⟩
    ⟨"a".data, "h".data, some (.obj [("namespace".data, .str "m".data)])⟩
    (.obj [("namespace".data, .str "m".data)])
    (by decide) rfl (by decide) "e".data 5

/-- C9: on a MON node, discovery event validation checks only that the peer
carries an advertisement: check_node succeeds exactly when the advertisement
is present, regardless of its axon_type, key, or namespace; the added
handler then invokes the user's added callback (when registered) for every
such peer, and the removed handler invokes the user's removed callback
exactly when the advertisement is present and the callback is registered. -/
theorem cote_discovery_C9 :
    (∀ (namespace_ : Option CStr) (node : discover_node_t),
      cote_discovery_check_node COTE_TYPE_MON namespace_ node
        = if node.advertisement.isSome then 0 else -1)
    ∧ (∀ (namespace_ : Option CStr) (uh : Bool) (st rq : Option Json)
        (au : Nat) (ecb : Bool) (env : added_env) (node : discover_node_t),
      node.advertisement.isSome = true →
      cote_discovery_added_cb COTE_TYPE_MON namespace_ uh st rq true au ecb env node
        = [added_event.added_cb au])
    ∧ (∀ (namespace_ : Option CStr) (rcb : Bool) (node : discover_node_t),
      cote_discovery_removed_cb COTE_TYPE_MON namespace_ rcb node
        = (node.advertisement.isSome && rcb)) := by
  refine ⟨?_, ?_, ?_⟩
  · intro namespace_ node
    rcases node with ⟨addr, host, adv?⟩
    cases adv? <;> simp [cote_discovery_check_node]
  · intro namespace_ uh st rq au ecb env node hsome
    rcases node with ⟨addr, host, adv?⟩
    cases adv? with
    | none => simp at hsome
    | some adv =>
      simp [cote_discovery_added_cb, cote_discovery_check_node]
  · intro namespace_ rcb node
    rcases node with ⟨addr, host, adv?⟩
    cases adv? <;> simp [cote_discovery_removed_cb, cote_discovery_check_node]

/-- Witness for C9 at a concrete input: a MON node observing a peer whose
advertisement carries a foreign key and namespace. -/
theorem cote_discovery_C9_witness :
    cote_discovery_added_cb COTE_TYPE_MON none false none none true 9 false
        ⟨fun _ _ => false, fun _ _ => true, fun _ _ => false⟩
        ⟨"a".data, "h".data,
          some (.obj [("key".data, .str "bad".data),
                      ("namespace".data, .str "m".data)])⟩
      = [added_event.added_cb 9] :=
  cote_discovery_C9.2.1 none false none none 9 false
    ⟨fun _ _ => false, fun _ _ => true, fun _ _ => false⟩
    ⟨"a".data, "h".data,
      some (.obj [("key".data, .str "bad".data),
                  ("namespace".data, .str "m".data)])⟩ rfl
